import Mathlib

/-!
Verification of the conflubot retrieval-augmented answering pipeline.

The definitions below are a shallow embedding of the Python sources:
  * `src/main.py` — the FastAPI service: `call_claude_throttled` and the
    `/ask` endpoint handler `ask`;
  * `src/src/ask_claude.py` — the CLI pipeline: `build_prompt` and the
    retrying `ask_claude` (the `build_prompt` in `src/ask_claude.py` is
    textually identical).

External effects are made explicit: the language-model backend is a
function from (prompt, call index) to a result, `time.sleep` durations are
accumulated in a list of rationals (seconds), and `random.uniform(0.1, 0.5)`
is a caller-supplied jitter function.  Python exceptions become `Except`
values; a retrieved Qdrant payload (a Python dict) becomes a record of
optional fields.
-/

/-- A retrieved payload (Python dict). Each field is optional: Python dict
access `d.get(k, default)` maps to `Option.getD`, and bare `d[k]` maps to a
match that fails (KeyError) on `none`. -/
structure Payload where
  title : Option String
  url : Option String
  text : Option String
  source : Option String
  page : Option String
deriving DecidableEq, Repr

/-- A Qdrant search hit as consumed by `build_prompt`: the code reads
`chunk.payload`. -/
structure Chunk where
  payload : Payload
deriving DecidableEq, Repr

/-- Python exceptions relevant to `src/main.py`: `anthropic.APIStatusError`
carrying `status_code`, and any other exception carrying its message. -/
inductive PyError where
  | apiStatusError (statusCode : Nat)
  | genericError (msg : String)
deriving DecidableEq, Repr

/-- One backend call outcome for `anthropic.messages.create` in
`src/main.py`: either a successful response text or a raised exception. -/
inductive ModelResult where
  | success (text : String)
  | failure (e : PyError)
deriving DecidableEq, Repr

/-- The message of the exception raised by `call_claude_throttled` when all
retries are exhausted (src/main.py line 96). -/
def overloadExhaustedMsg : String := "Failed after retries due to overload."

/-- The wait computed on a 529 in `call_claude_throttled`
(src/main.py line 91): `wait = delay + attempt + random.uniform(0.1, 0.5)`,
with the jitter draw passed in as `j`. -/
def retryWait (delay : ℚ) (attempt : Nat) (j : ℚ) : ℚ :=
  delay + (attempt : ℚ) + j

/-- The retry loop of `call_claude_throttled` (src/main.py lines 80-96).
`remaining` counts the iterations left of `for attempt in range(retries)`;
`calls` numbers the backend invocations made so far; `sleeps` accumulates
every `time.sleep` duration in order.  Falling off the loop raises
`Exception("Failed after retries due to overload.")`. -/
def callClaudeLoop (prompt : String) (backend : String → Nat → ModelResult)
    (jitter : Nat → ℚ) (delay : ℚ) :
    Nat → Nat → Nat → List ℚ → Except PyError String × Nat × List ℚ
  | 0, _attempt, calls, sleeps =>
      (Except.error (PyError.genericError overloadExhaustedMsg), calls, sleeps)
  | remaining + 1, attempt, calls, sleeps =>
      let sleeps := sleeps ++ [delay]
      match backend prompt calls with
      | ModelResult.success t => (Except.ok t, calls + 1, sleeps)
      | ModelResult.failure (PyError.apiStatusError sc) =>
          if sc = 529 then
            callClaudeLoop prompt backend jitter delay remaining (attempt + 1)
              (calls + 1) (sleeps ++ [retryWait delay attempt (jitter attempt)])
          else
            (Except.error (PyError.apiStatusError sc), calls + 1, sleeps)
      | ModelResult.failure (PyError.genericError m) =>
          (Except.error (PyError.genericError m), calls + 1, sleeps)

/-- Model of `call_claude_throttled(prompt, delay=2, retries=3)`
(src/main.py lines 79-96).  Returns (result, backend call count, sleeps). -/
def call_claude_throttled (prompt : String) (backend : String → Nat → ModelResult)
    (jitter : Nat → ℚ) (delay : ℚ) (retries : Nat) :
    Except PyError String × Nat × List ℚ :=
  callClaudeLoop prompt backend jitter delay retries 0 0 []

/-- The constant `anthropic.HUMAN_PROMPT`. -/
def HUMAN_PROMPT : String := "\n\nHuman:"

/-- The constant `anthropic.AI_PROMPT`. -/
def AI_PROMPT : String := "\n\nAssistant:"

/-- The f-string building the user prompt in `ask` (src/main.py lines
128-139), indentation of the triple-quoted literal included. -/
def mkUserPrompt (question context : String) : String :=
  HUMAN_PROMPT
    ++ "\n        Based on the following context from our knowledge base, please answer the user\x27s question.\n        Answer in the same language as the user\x27s question.\n        Cite the sources you used in your answer using markdown links like [Source Title](URL).\n\n        Context:\n        "
    ++ context
    ++ "\n\n        Question: " ++ question ++ "\n        " ++ AI_PROMPT ++ "\n        "

/-- The context lines of `ask` (src/main.py line 126): one entry
`f"Source: {res[\x27url\x27]}\nContent: {res[\x27text\x27]}"` per result; `none`
models the KeyError raised when `url` or `text` is missing. -/
def contextEntries : List Payload → Option (List String)
  | [] => some []
  | r :: rs =>
      match r.url, r.text, contextEntries rs with
      | some u, some t, some rest =>
          some (("Source: " ++ u ++ "\nContent: " ++ t) :: rest)
      | _, _, _ => none

/-- The join `"\n\n".join(...)` over the context entries (src/main.py
line 126). -/
def buildContext (rs : List Payload) : Option String :=
  (contextEntries rs).map (String.intercalate "\n\n")

/-- The sources list of `ask` (src/main.py line 147):
`[{"title": res["title"], "url": res["url"]} for res in context_results]`;
`none` models the KeyError on a missing `title` or `url`. -/
def mkSources : List Payload → Option (List (String × String))
  | [] => some []
  | r :: rs =>
      match r.title, r.url, mkSources rs with
      | some t, some u, some rest => some ((t, u) :: rest)
      | _, _, _ => none

/-- The fixed no-context answer of `ask` (src/main.py line 123). -/
def insufficientInfoAnswer : String :=
  "I couldn\x27t find any relevant information in the knowledge base to answer your question."

/-- The HTTP outcome of one `/ask` request: a 200 success body
(answer, sources) or an error status with detail.  A 500 produced by the
generic exception handler and a 500 `HTTPException` are both
`httpError 500`. -/
inductive AskOutcome where
  | success (answer : String) (sources : List (String × String))
  | httpError (status : Nat) (detail : String)
deriving DecidableEq, Repr

/-- Model of the `/ask` handler `ask` (src/main.py lines 108-166), with the
retrieval result `contextResults` passed in (Qdrant is external).  Returns
the HTTP outcome together with the number of language-model backend calls
made.  Mirrors the code in order:
1. the debug loop (line 117) slices `res.get(\x27text\x27)[:100]` over the
   first three results, a TypeError (hence 500) when a `text` is missing;
2. the empty-retrieval early return (lines 121-123);
3. the context join (line 126, KeyError → 500 on missing `url`/`text`);
4. `call_claude_throttled` on the built prompt;
5. the sources list (line 147, KeyError → 500 on missing `title`/`url`);
6. the exception mapping (lines 151-163): `APIStatusError` with 529 → 503,
   other `APIStatusError` → 500, any other exception → generic handler 500. -/
def ask (question : String) (contextResults : List Payload)
    (backend : String → Nat → ModelResult) (jitter : Nat → ℚ) :
    AskOutcome × Nat :=
  if (contextResults.take 3).any (fun r => r.text.isNone) then
    (AskOutcome.httpError 500 "TypeError", 0)
  else if contextResults.isEmpty then
    (AskOutcome.success insufficientInfoAnswer [], 0)
  else
    match buildContext contextResults with
    | none => (AskOutcome.httpError 500 "KeyError", 0)
    | some context =>
        match call_claude_throttled (mkUserPrompt question context) backend jitter 2 3 with
        | (Except.ok answer, calls, _) =>
            match mkSources contextResults with
            | none => (AskOutcome.httpError 500 "KeyError", calls)
            | some sources => (AskOutcome.success answer sources, calls)
        | (Except.error (PyError.apiStatusError sc), calls, _) =>
            if sc = 529 then
              (AskOutcome.httpError 503
                "The service is temporarily overloaded. Please try again later.", calls)
            else
              (AskOutcome.httpError 500 "An unexpected API error occurred", calls)
        | (Except.error (PyError.genericError msg), calls, _) =>
            (AskOutcome.httpError 500 msg, calls)

/-- One backend call outcome for `anthropic.messages.create` in
`src/src/ask_claude.py`: a successful response text, the distinguished
`anthropic._exceptions.OverloadedError`, or any other raised exception. -/
inductive CliModelResult where
  | success (text : String)
  | overloaded
  | failure (e : PyError)
deriving DecidableEq, Repr

/-- An error escaping `ask_claude` (src/src/ask_claude.py): the re-raised
`OverloadedError` after exhausted retries, or an uncaught other error. -/
inductive CliError where
  | overloadedError
  | other (e : PyError)
deriving DecidableEq, Repr

/-- The retry loop of `ask_claude` (src/src/ask_claude.py lines 60-81):
`for attempt in range(max_retries)`. `remaining` counts iterations left,
`attempt` is the loop index, `calls` the backend invocations so far, and
`sleeps` the `time.sleep` durations (each `2 ** attempt` seconds).
`attempt + 1 < maxRetries` renders the code\x27s `attempt < max_retries - 1`
over ℕ.  Falling off the loop (only possible when `maxRetries = 0`)
returns Python\x27s implicit `None`, modelled as `Except.ok none`; a success
returns `response.content[0].text.strip()`, modelled with `String.trim`. -/
def askClaudeLoop (prompt : String) (backend : String → Nat → CliModelResult)
    (maxRetries : Nat) :
    Nat → Nat → Nat → List ℚ → Except CliError (Option String) × Nat × List ℚ
  | 0, _attempt, calls, sleeps => (Except.ok none, calls, sleeps)
  | remaining + 1, attempt, calls, sleeps =>
      match backend prompt calls with
      | CliModelResult.success t => (Except.ok (some t.trim), calls + 1, sleeps)
      | CliModelResult.overloaded =>
          if attempt + 1 < maxRetries then
            askClaudeLoop prompt backend maxRetries remaining (attempt + 1)
              (calls + 1) (sleeps ++ [(2 : ℚ) ^ attempt])
          else
            (Except.error CliError.overloadedError, calls + 1, sleeps)
      | CliModelResult.failure e =>
          (Except.error (CliError.other e), calls + 1, sleeps)

/-- Model of `ask_claude(prompt, max_retries=3)` (src/src/ask_claude.py
lines 56-81).  Returns (result, backend call count, sleeps). -/
def ask_claude (prompt : String) (backend : String → Nat → CliModelResult)
    (maxRetries : Nat) : Except CliError (Option String) × Nat × List ℚ :=
  askClaudeLoop prompt backend maxRetries maxRetries 0 0 []

/-- One context line of `build_prompt` (src/src/ask_claude.py line 45):
`f"Dokument {i+1} (Quelle: {chunk.payload.get(\x27source\x27, \x27Unbekannte Quelle\x27)}, Seite: {chunk.payload.get(\x27page\x27, \x27?\x27)}):\n{chunk.payload.get(\x27text\x27, \x27\x27)}\n\n"`. -/
def contextLine (i : Nat) (p : Payload) : String :=
  ("Dokument " ++ toString (i + 1) ++ " (Quelle: "
      ++ p.source.getD "Unbekannte Quelle" ++ ", Seite: "
      ++ p.page.getD "?" ++ "):\n")
    ++ p.text.getD "" ++ "\n\n"

/-- The accumulation loop of `build_prompt` (src/src/ask_claude.py lines
43-45): `for i, chunk in enumerate(context_chunks): context_text += ...`,
with `i` threaded explicitly. -/
def contextTextAux : Nat → List Chunk → String
  | _, [] => ""
  | i, c :: cs => contextLine i c.payload ++ contextTextAux (i + 1) cs

/-- Model of `build_prompt(query, context_chunks)` (src/src/ask_claude.py
lines 42-54; the copy in src/ask_claude.py lines 39-51 is identical). -/
def build_prompt (query : String) (contextChunks : List Chunk) : String :=
  "Bitte beantworte die folgende Frage nur auf Basis des bereitgestellten Kontexts.\n\n--- BEGINN KONTEXT ---\n"
    ++ contextTextAux 0 contextChunks
    ++ ("--- ENDE KONTEXT ---\n\nFrage: " ++ query)

/-- The pattern `pat` occurs contiguously inside `s` (character lists). -/
def listSub (pat s : List Char) : Prop :=
  ∃ pre post : List Char, pre ++ pat ++ post = s

/-- The pattern `pat` occurs contiguously inside the string `s`. -/
def substrOf (pat s : String) : Prop :=
  listSub pat.data s.data

/-- Boolean check that `s` begins with `pat`. -/
def charsStartWith : List Char → List Char → Bool
  | _, [] => true
  | [], _ :: _ => false
  | c :: cs, d :: ds => c == d && charsStartWith cs ds

/-- Boolean occurrence check of `pat` inside `s` (character lists). -/
def charsContain (pat : List Char) : List Char → Bool
  | [] => charsStartWith [] pat
  | c :: cs => charsStartWith (c :: cs) pat || charsContain pat cs

/-- Boolean occurrence check of `pat` inside the string `s`. -/
def containsSub (s pat : String) : Bool :=
  charsContain pat.data s.data

/-- A 60-character passage body, used to exercise prompt construction on
input far longer than any plausible length cap. -/
def longBodyA : String := String.mk (List.replicate 60 'a')

/-- A second 60-character passage body. -/
def longBodyB : String := String.mk (List.replicate 60 'b')

theorem strData_append (s t : String) : (s ++ t).data = s.data ++ t.data := rfl

theorem listSub_append_left (pat a s : List Char) (h : listSub pat s) :
    listSub pat (a ++ s) := by
  obtain ⟨p, q, rfl⟩ := h
  exact ⟨a ++ p, q, by simp⟩

theorem listSub_append_right (pat s b : List Char) (h : listSub pat s) :
    listSub pat (s ++ b) := by
  obtain ⟨p, q, rfl⟩ := h
  exact ⟨p, q ++ b, by simp⟩

theorem substrOf_append_left (pat a s : String) (h : substrOf pat s) :
    substrOf pat (a ++ s) := by
  unfold substrOf at *
  rw [strData_append]
  exact listSub_append_left _ _ _ h

theorem substrOf_append_right (pat s b : String) (h : substrOf pat s) :
    substrOf pat (s ++ b) := by
  unfold substrOf at *
  rw [strData_append]
  exact listSub_append_right _ _ _ h

theorem contextLine_substr (i : Nat) (p : Payload) :
    substrOf (p.text.getD "") (contextLine i p) := by
  unfold contextLine substrOf
  rw [strData_append, strData_append]
  exact ⟨_, _, rfl⟩

theorem substrOf_contextTextAux (c : Chunk) :
    ∀ (chunks : List Chunk) (i : Nat), c ∈ chunks →
      substrOf (c.payload.text.getD "") (contextTextAux i chunks)
  | [], _i, h => absurd h (List.not_mem_nil c)
  | d :: cs, i, h => by
      simp only [contextTextAux]
      rcases List.mem_cons.mp h with h1 | h2
      · subst h1
        exact substrOf_append_right _ _ _ (contextLine_substr i c.payload)
      · exact substrOf_append_left _ _ _ (substrOf_contextTextAux c cs (i + 1) h2)

theorem mkSources_eq : ∀ (rs : List Payload) (l : List (String × String)),
    mkSources rs = some l → l = rs.map (fun r => (r.title.getD "", r.url.getD ""))
  | [], l, h => by
      simp only [mkSources, Option.some.injEq] at h
      simp [← h]
  | r :: rs, l, h => by
      simp only [mkSources] at h
      split at h
      · rename_i t u rest ht hu hrest
        obtain rfl := Option.some.injEq .. ▸ h
        simp [List.map, ht, hu, ← mkSources_eq rs rest hrest]
      · exact absurd h (by simp)

/-- Claim C5: when retrieval returns zero passages, the `/ask` response is
the fixed insufficient-information answer with an empty sources list, and
the language-model backend is never invoked (zero backend calls). -/
theorem emptyContextShortCircuits (q : String)
    (backend : String → Nat → ModelResult) (jitter : Nat → ℚ) :
    ask q [] backend jitter = (AskOutcome.success insufficientInfoAnswer [], 0) := rfl

/-- Claim C1 (documents the code bug): an `/ask` request whose backend
reports status 529 on all three attempts is answered with HTTP 500 carrying
the plain-Exception message, not with the 503 that the spec (and the dead
529-branch of the handler) prescribe: `call_claude_throttled` raises a bare
`Exception` after retries, which the `except APIStatusError` arm never
catches. -/
theorem overloadExhaustionReturns500 :
    ask "q" [⟨some "T", some "U", some "B", none, none⟩]
        (fun _ _ => ModelResult.failure (PyError.apiStatusError 529))
        (fun _ => (1 : ℚ)/4)
      = (AskOutcome.httpError 500 overloadExhaustedMsg, 3) := by decide

/-- Claim C10: `call_claude_throttled` sleeps the fixed `delay` before
every attempt, the first included: a backend succeeding on the very first
call still incurs exactly one sleep of `delay` before its single call, and
an always-overloaded backend produces the sleep trace
`delay, wait₀, delay, wait₁, delay, wait₂`. -/
theorem fixedDelayBeforeEveryAttempt (p t : String)
    (backend : String → Nat → ModelResult) (jitter : Nat → ℚ) (delay : ℚ)
    (h : backend p 0 = ModelResult.success t) :
    call_claude_throttled p backend jitter delay 3 = (Except.ok t, 1, [delay]) ∧
    (call_claude_throttled p (fun _ _ => ModelResult.failure (PyError.apiStatusError 529))
        jitter delay 3).2.2
      = [delay, retryWait delay 0 (jitter 0), delay, retryWait delay 1 (jitter 1),
         delay, retryWait delay 2 (jitter 2)] := by
  constructor
  · simp [call_claude_throttled, callClaudeLoop, h]
  · rfl

theorem fixedDelayBeforeEveryAttemptWitness :
    call_claude_throttled "p" (fun _ _ => ModelResult.success "y") (fun _ => 0) 2 3
        = (Except.ok "y", 1, [2]) ∧
    (call_claude_throttled "p" (fun _ _ => ModelResult.failure (PyError.apiStatusError 529))
        (fun _ => 0) 2 3).2.2
      = [2, retryWait 2 0 0, 2, retryWait 2 1 0, 2, retryWait 2 2 0] :=
  fixedDelayBeforeEveryAttempt "p" "y" (fun _ _ => ModelResult.success "y") (fun _ => 0) 2 rfl

/-- Claim C3: against a backend that reports transient overload on every
call, both retrying answer operations make exactly 3 backend calls
(the default retry budget) and then raise an error: `ask_claude` re-raises
the `OverloadedError`, and `call_claude_throttled` raises the
retries-exhausted `Exception`. -/
theorem alwaysOverloadedExhaustsRetries (p : String) (jitter : Nat → ℚ) :
    ask_claude p (fun _ _ => CliModelResult.overloaded) 3
        = (Except.error CliError.overloadedError, 3, [1, 2]) ∧
    call_claude_throttled p (fun _ _ => ModelResult.failure (PyError.apiStatusError 529))
        jitter 2 3
      = (Except.error (PyError.genericError overloadExhaustedMsg), 3,
         [2, retryWait 2 0 (jitter 0), 2, retryWait 2 1 (jitter 1),
          2, retryWait 2 2 (jitter 2)]) := by
  constructor
  · show (_, _, [(2:ℚ)^0, (2:ℚ)^1]) = _
    norm_num
  · rfl

/-- Claim C4: a backend raising a non-overload error on the first call
makes the answer operation re-raise it at once: exactly one backend call,
no retry, and no backoff sleep (`ask_claude` sleeps nothing;
`call_claude_throttled` records only its fixed pre-call throttle sleep). -/
theorem nonOverloadErrorImmediate (p : String)
    (b1 : String → Nat → CliModelResult) (b2 : String → Nat → ModelResult)
    (e : PyError) (sc : Nat) (jitter : Nat → ℚ)
    (h1 : b1 p 0 = CliModelResult.failure e)
    (h2 : b2 p 0 = ModelResult.failure (PyError.apiStatusError sc))
    (hsc : sc ≠ 529) :
    ask_claude p b1 3 = (Except.error (CliError.other e), 1, []) ∧
    call_claude_throttled p b2 jitter 2 3
      = (Except.error (PyError.apiStatusError sc), 1, [2]) := by
  constructor
  · simp [ask_claude, askClaudeLoop, h1]
  · simp [call_claude_throttled, callClaudeLoop, h2, hsc]

theorem nonOverloadErrorImmediateWitness :
    ask_claude "p" (fun _ _ => CliModelResult.failure (PyError.genericError "boom")) 3
        = (Except.error (CliError.other (PyError.genericError "boom")), 1, []) ∧
    call_claude_throttled "p" (fun _ _ => ModelResult.failure (PyError.apiStatusError 400))
        (fun _ => 0) 2 3
      = (Except.error (PyError.apiStatusError 400), 1, [2]) :=
  nonOverloadErrorImmediate "p"
    (fun _ _ => CliModelResult.failure (PyError.genericError "boom"))
    (fun _ _ => ModelResult.failure (PyError.apiStatusError 400))
    (PyError.genericError "boom") 400 (fun _ => 0) rfl rfl (by decide)

/-- Claim C6: whenever the `/ask` handler returns a success response, its
sources list is exactly the (title, url) pairs of the retrieved payloads,
in retrieval order — the same payload list that prompt construction
consumed, so no citation is fabricated beyond what retrieval supplied. -/
theorem askSourcesFromRetrieval (q : String) (rs : List Payload)
    (backend : String → Nat → ModelResult) (jitter : Nat → ℚ)
    (a : String) (srcs : List (String × String)) (n : Nat)
    (h : ask q rs backend jitter = (AskOutcome.success a srcs, n)) :
    srcs = rs.map (fun r => (r.title.getD "", r.url.getD "")) := by
  unfold ask at h
  split at h
  · simp at h
  · split at h
    · rename_i hne hemp
      have hrs : rs = [] := by simpa using hemp
      subst hrs
      simp only [Prod.mk.injEq, AskOutcome.success.injEq] at h
      simp [← h.1.2]
    · split at h
      · simp at h
      · split at h
        · split at h
          · simp at h
          · rename_i sources hsrc
            simp only [Prod.mk.injEq, AskOutcome.success.injEq] at h
            rw [← h.1.2]
            exact mkSources_eq rs sources hsrc
        · split at h <;> simp at h
        · simp at h

theorem askSourcesFromRetrievalWitness :
    ([("T", "U")] : List (String × String))
      = [(⟨some "T", some "U", some "B", none, none⟩ : Payload)].map
          (fun r => (r.title.getD "", r.url.getD "")) :=
  askSourcesFromRetrieval "q" [⟨some "T", some "U", some "B", none, none⟩]
    (fun _ _ => ModelResult.success "ans") (fun _ => 0) "ans" [("T", "U")] 1 (by decide)

/-- Claim C2 counterexample: in `call_claude_throttled`, the delay before
the second attempt is `delay + attempt + uniform(0.1, 0.5)`.  With the
legal jitter draw 0.1 the recorded backoff sleep is 21/10 seconds, which
exceeds `2 ^ 0 + 1/2` — so the retry delay is not `base ^ attempt` (base 2)
plus a jitter of at most half a second, as the claim states. -/
theorem retryDelayNotExponentialCounterexample :
    (call_claude_throttled "p"
        (fun _ n => if n = 0 then ModelResult.failure (PyError.apiStatusError 529)
                    else ModelResult.success "ok")
        (fun _ => (1 : ℚ)/10) 2 3).2.2 = [2, 21/10, 2] ∧
    ¬((21 : ℚ)/10 ≤ 2 ^ 0 + 1/2) := by
  constructor
  · have h : (call_claude_throttled "p"
        (fun _ n => if n = 0 then ModelResult.failure (PyError.apiStatusError 529)
                    else ModelResult.success "ok")
        (fun _ => (1 : ℚ)/10) 2 3).2.2 = [2, retryWait 2 0 (1/10), 2] := rfl
    rw [h]
    norm_num [retryWait]
  · norm_num

/-- Claim C2 as amended: the exponential backoff lives in the CLI
`ask_claude`, and it carries no jitter: against a backend that overloads on
the first N−1 calls and succeeds on the Nth (1 ≤ N ≤ 3 = maxRetries), the
answer is the success text (stripped), exactly N calls are made, and the
sleep trace is exactly `2 ^ 0, …, 2 ^ (N−2)` — so the total delay equals
(hence is at least) the sum of the first N−1 exponential backoff steps. -/
theorem askClaudeExponentialBackoff (p t : String) (N : Nat)
    (h1 : 1 ≤ N) (h2 : N ≤ 3) :
    ask_claude p
        (fun _ n => if n + 1 < N then CliModelResult.overloaded
                    else CliModelResult.success t) 3
      = (Except.ok (some t.trim), N, (List.range (N - 1)).map (fun i => (2 : ℚ) ^ i)) := by
  interval_cases N
  · rfl
  · rfl
  · rfl

theorem askClaudeExponentialBackoffWitness :
    ask_claude "p"
        (fun _ n => if n + 1 < 2 then CliModelResult.overloaded
                    else CliModelResult.success " ok ") 3
      = (Except.ok (some " ok ".trim), 2, (List.range 1).map (fun i => (2 : ℚ) ^ i)) :=
  askClaudeExponentialBackoff "p" " ok " 2 (by decide) (by decide)

/-- Claim C7 counterexample: in the `/ask` handler the payload fields are
read with bare indexing, not with defaults — a retrieved hit whose payload
lacks `url` makes the request fail with a 500 (KeyError) before the model
is ever called, instead of substituting a sentinel value. -/
theorem missingUrlField500 :
    ask "q" [⟨some "T", none, some "B", none, none⟩]
        (fun _ _ => ModelResult.success "ans") (fun _ => 0)
      = (AskOutcome.httpError 500 "KeyError", 0) := by decide

/-- Claim C7 as amended: the sentinel defaults exist in the CLI
`build_prompt` only — a chunk whose payload has every field missing still
renders, with `Unbekannte Quelle` for the source, `?` for the page and an
empty body, and prompt construction never fails. -/
theorem buildPromptSentinelDefaults (q : String) :
    build_prompt q [Chunk.mk ⟨none, none, none, none, none⟩]
      = "Bitte beantworte die folgende Frage nur auf Basis des bereitgestellten Kontexts.\n\n--- BEGINN KONTEXT ---\nDokument 1 (Quelle: Unbekannte Quelle, Seite: ?):\n\n\n--- ENDE KONTEXT ---\n\nFrage: " ++ q := rfl

/-- Claim C8 counterexample: the prompt built from an empty passage list is
the fixed template with an empty context block — it contains no phrase
stating that no context was found (no "kein"/"nicht"/"no context"
marker). -/
theorem emptyPassagesNoMarker :
    build_prompt "Frage?" []
        = "Bitte beantworte die folgende Frage nur auf Basis des bereitgestellten Kontexts.\n\n--- BEGINN KONTEXT ---\n--- ENDE KONTEXT ---\n\nFrage: Frage?" ∧
    containsSub (build_prompt "Frage?" []) "kein" = false ∧
    containsSub (build_prompt "Frage?" []) "Kein" = false ∧
    containsSub (build_prompt "Frage?" []) "nicht" = false ∧
    containsSub (build_prompt "Frage?" []) "no context" = false ∧
    containsSub (build_prompt "Frage?" []) "No context" = false := by
  refine ⟨rfl, ?_, ?_, ?_, ?_, ?_⟩ <;> decide

/-- Claim C8 as amended: `build_prompt` on an empty passage sequence yields
the fixed template whose context block between the BEGINN/ENDE KONTEXT
delimiters is empty; no explicit no-context marker text is inserted. -/
theorem buildPromptEmptyContext (q : String) :
    build_prompt q []
      = "Bitte beantworte die folgende Frage nur auf Basis des bereitgestellten Kontexts.\n\n--- BEGINN KONTEXT ---\n--- ENDE KONTEXT ---\n\nFrage: " ++ q := rfl

/-- Claim C9 counterexample: two passages whose bodies total 120 characters
— longer than any plausible cap — are both kept: the built prompt still
contains the full body of the last (lowest-similarity) passage, so nothing
is dropped from the low-similarity end. -/
theorem noTruncationCounterexample :
    100 < (longBodyA ++ longBodyB).length ∧
    substrOf longBodyB
      (build_prompt "q"
        [Chunk.mk ⟨none, none, some longBodyA, some "A", some "1"⟩,
         Chunk.mk ⟨none, none, some longBodyB, some "B", some "2"⟩]) := by
  constructor
  · show (100 : Nat) < (List.replicate 60 'a' ++ List.replicate 60 'b').length
    simp
  · have h := substrOf_contextTextAux
      (Chunk.mk ⟨none, none, some longBodyB, some "B", some "2"⟩)
      [Chunk.mk ⟨none, none, some longBodyA, some "A", some "1"⟩,
       Chunk.mk ⟨none, none, some longBodyB, some "B", some "2"⟩] 0
      (List.mem_cons_of_mem _ (List.mem_singleton.mpr rfl))
    unfold build_prompt
    exact substrOf_append_right _ _ _ (substrOf_append_left _ _ _ h)

/-- Claim C9 as amended: prompt construction never truncates — the body of
every retrieved passage occurs verbatim in the built prompt, whatever the
total length; no maximum-length configuration exists and no passage is
dropped. -/
theorem buildPromptRetainsAllPassages (q : String) (chunks : List Chunk)
    (c : Chunk) (h : c ∈ chunks) :
    substrOf (c.payload.text.getD "") (build_prompt q chunks) := by
  unfold build_prompt
  apply substrOf_append_right
  apply substrOf_append_left
  exact substrOf_contextTextAux c chunks 0 h

theorem buildPromptRetainsAllPassagesWitness :
    substrOf ((Chunk.mk ⟨none, none, some "body", none, none⟩).payload.text.getD "")
      (build_prompt "q" [Chunk.mk ⟨none, none, some "body", none, none⟩]) :=
  buildPromptRetainsAllPassages "q" [Chunk.mk ⟨none, none, some "body", none, none⟩]
    (Chunk.mk ⟨none, none, some "body", none, none⟩) (List.mem_singleton.mpr rfl)
